import Mathlib

/-!
# Acquisitions API: request gate, user controllers and user services

A shallow embedding of the JavaScript sources

* `src/middleware/security.middleware.js` (the Throttle Gate),
* `src/app.js` and `src/routes/users.routes.js` (the middleware pipeline),
* `src/controllers/users.controller.js`, `src/services/users.service.js`,
* `src/controllers/auth.controller.js`, `src/services/auth.service.js` (signup),

followed by theorems about them.

Conventions of the embedding.

* An Express handler `(req, res, next)` is a function from the request and the world to the
  (possibly mutated) request, an `Outcome` (the response sent, if any, and whether and how
  `next` was called) and the new world.
* The world is the users table of the User Directory, with the largest value its integer
  `id` column can hold, together with a ghost trace recording, in order, the rule handed to
  the Verdict Provider, the stages that ran and the service functions that were called.
* A query that compares the `id` column with a value beyond that bound throws; every other
  query succeeds.
* `throw` / `try ... catch` is `Except JsError`.
* The Verdict Provider (`client.protect`), the Token Service, `bcrypt` and the clock are
  oracles collected in `Env`.
* Schema validation (`safeParse`) is an input of the request: a request carries the result of
  parsing it, either a failure or the parsed data.
* Calls to the logger have no effect on responses or on the directory and are left out.
-/

namespace Acquisitions

deriving instance DecidableEq for Except

/-! ## JavaScript values -/

/-- The JavaScript values that flow through the modelled code paths. -/
inductive JsVal where
  | undefined
  | num (n : Nat)
  | str (s : String)
  deriving DecidableEq, Repr

/-- A plain JavaScript object: its own properties, in order. -/
abbrev JsObj := List (String × JsVal)

/-- Property read `o.key`: the value of the property, `undefined` when the object has none. -/
def JsObj.get (o : JsObj) (key : String) : JsVal :=
  match o.lookup key with
  | some v => v
  | none => JsVal.undefined

/-- Truthiness of a value, as used by `&&`, `||`, `!` and `if`. -/
def JsVal.truthy : JsVal → Bool
  | JsVal.undefined => false
  | JsVal.num n => n != 0
  | JsVal.str s => s != ""

/-- String conversion of a value inside a template literal. -/
def JsVal.toStr : JsVal → String
  | JsVal.undefined => "undefined"
  | JsVal.num n => toString n
  | JsVal.str s => s

/-- Strict equality `a === b` on the modelled values. -/
def JsVal.strictEq (a b : JsVal) : Bool := decide (a = b)

/-- An `Error` object: its message and its optional `status` property. -/
structure JsError where
  message : String
  status : Option Nat
  deriving DecidableEq, Repr

/-- The value of `error.status || 500`. -/
def JsError.statusOr500 (e : JsError) : Nat :=
  match e.status with
  | some s => if s != 0 then s else 500
  | none => 500

/-! ## Data model -/

/-- The identity carried by a credential: the payload `signup` and `signin` sign. -/
structure Identity where
  userId : Nat
  email : String
  role : String
  deriving DecidableEq, Repr

/-- The payload object `{ userId, email, role }` of an identity, as signed in
`auth.controller.js` and attached to the request as `req.user`. -/
def Identity.payload (i : Identity) : JsObj :=
  [("userId", JsVal.num i.userId), ("email", JsVal.str i.email), ("role", JsVal.str i.role)]

/-- Modelled from the spec: a row of the users table (`models/user.model.js` is not among the
sources); the columns are the ones the services select, insert and return. -/
structure UserRecord where
  id : Nat
  name : String
  email : String
  password : String
  role : String
  createdAt : Nat
  updatedAt : Nat
  deriving DecidableEq, Repr

/-- The columns the services return to their callers (the password is never selected);
`updatedAt` is absent from what `createUser` returns. -/
structure UserView where
  id : Nat
  name : String
  email : String
  role : String
  createdAt : Nat
  updatedAt : Option Nat
  deriving DecidableEq, Repr

/-- The projection `returning({ id, name, email, role, createdAt, updatedAt })`. -/
def UserRecord.view (r : UserRecord) : UserView :=
  { id := r.id, name := r.name, email := r.email, role := r.role,
    createdAt := r.createdAt, updatedAt := some r.updatedAt }

/-- The two values of `z.enum(['user', 'admin'])`. -/
inductive RoleEnum where
  | user
  | admin
  deriving DecidableEq, Repr

/-- The string a role value is in JavaScript. -/
def RoleEnum.toStr : RoleEnum → String
  | RoleEnum.user => "user"
  | RoleEnum.admin => "admin"

/-- The parsed body of `updateUserSchema`: four optional fields. -/
structure UpdateData where
  name : Option String
  email : Option String
  password : Option String
  role : Option RoleEnum
  deriving DecidableEq, Repr

/-- Property read `updates.role`. -/
def UpdateData.roleVal (u : UpdateData) : JsVal :=
  match u.role with
  | some r => JsVal.str r.toStr
  | none => JsVal.undefined

/-- The refinement of `updateUserSchema`: the body has at least one key. -/
def UpdateData.nonEmpty (u : UpdateData) : Bool :=
  u.name.isSome || u.email.isSome || u.password.isSome || u.role.isSome

/-- The parsed body of the signup schema (`validations/auth.validation.js` is not among the
sources): the four fields `signup` destructures. -/
structure SignUpData where
  name : String
  email : String
  password : String
  role : String
  deriving DecidableEq, Repr

/-- The rule built by `slidingWindow({ mode, interval, max, name })`. -/
structure SlidingWindow where
  mode : String
  interval : String
  max : Nat
  name : String
  deriving DecidableEq, Repr

/-- The reason attached to a decision, as far as the gate can tell reasons apart: the three
it asks about (`isBot`, `isShield`, `isRateLimit`) and any other one. -/
inductive Reason where
  | bot
  | shield
  | rateLimit
  | other
  deriving DecidableEq, Repr

/-- A decision of the Verdict Provider. -/
structure Decision where
  denied : Bool
  reason : Reason
  deriving DecidableEq, Repr

/-- Predicate `decision.isDenied()`. -/
def Decision.isDenied (d : Decision) : Bool := d.denied

/-- Predicate `reason.isBot()`. -/
def Reason.isBot (r : Reason) : Bool := decide (r = Reason.bot)

/-- Predicate `reason.isShield()`. -/
def Reason.isShield (r : Reason) : Bool := decide (r = Reason.shield)

/-- Predicate `reason.isRateLimit()`. -/
def Reason.isRateLimit (r : Reason) : Bool := decide (r = Reason.rateLimit)

/-! ## Requests, responses, the world -/

/-- HTTP methods used by the routes. -/
inductive Method where
  | GET
  | POST
  | PUT
  | DELETE
  deriving DecidableEq, Repr

/-- A request. `path` is the list of path segments; `token` is the cookie named `token`;
`user` is `req.user`; the three parse fields hold what `safeParse` of the corresponding
schema gives on this request. -/
structure Req where
  method : Method
  path : List String
  token : Option String
  user : Option JsObj
  idParams : Except String Nat
  updateInput : Except String (Nat × UpdateData)
  signUpInput : Except String SignUpData
  deriving DecidableEq, Repr

/-- A field of a JSON response body. -/
inductive Field where
  | text (s : String)
  | count (n : Nat)
  | user (u : Option UserView)
  | users (us : List UserView)
  | account (id : Nat) (name email role : String)
  deriving DecidableEq, Repr

/-- A response: status code, JSON body, cookies set on it. -/
structure Response where
  status : Nat
  body : List (String × Field)
  cookies : List (String × String)
  deriving DecidableEq, Repr

/-- How a handler used `next`. -/
inductive Next where
  | notCalled
  | called
  | calledWith (e : JsError)
  deriving DecidableEq, Repr

/-- What a handler did: the response it sent, if any, and its use of `next`. -/
structure Outcome where
  response : Option Response
  next : Next
  deriving DecidableEq, Repr

/-- Entries of the ghost trace. -/
inductive Event where
  | protect (rule : SlidingWindow)
  | authenticateToken (attached : Option JsObj)
  | requireRole (roles : List String)
  | controller (name : String)
  | service (name : String)
  deriving DecidableEq, Repr

/-- The world: the users table, the serial counter of its `id` column, the largest value the
integer `id` column can hold (the table definition, `models/user.model.js`, is not among the
sources, so the bound is a parameter of the directory), and the ghost trace. -/
structure World where
  users : List UserRecord
  seq : Nat
  idMax : Nat
  trace : List Event
  deriving DecidableEq, Repr

/-- Append an event to the ghost trace. -/
def World.log (w : World) (e : Event) : World :=
  { w with trace := w.trace ++ [e] }

/-- An Express handler. -/
abbrev Handler := Req → World → Req × Outcome × World

/-- The external collaborators and the absent modules, as oracles. -/
structure Env where
  /-- The call `client.protect(req)` of the client carrying the rule: a decision, or a throw. -/
  protect : SlidingWindow → Req → Except JsError Decision
  /-- Token Service verification: the payload of a valid credential. -/
  verify : String → Option JsObj
  /-- Token Service signing (`jwttoken.sign`). -/
  sign : JsObj → Except JsError String
  /-- The call `bcrypt.hash(password, rounds)`. -/
  bcryptHash : String → Nat → Except JsError String
  /-- The clock (`new Date()` and the column defaults). -/
  now : Nat
  /-- The router mounted at `/api/auth` (`routes/auth.routes.js` is not among the sources). -/
  authRoutes : Method → List String → List Handler

/-- The response `res.status(status).json(body)`. -/
def json (status : Nat) (body : List (String × Field)) : Response :=
  { status := status, body := body, cookies := [] }

/-- Send `res.status(status).json(body)` without calling `next`. -/
def reply (status : Nat) (body : List (String × Field)) : Outcome :=
  { response := some (json status body), next := Next.notCalled }

/-- Send `res.status(status).json(body)` and then call `next()`. -/
def replyThenNext (status : Nat) (body : List (String × Field)) : Outcome :=
  { response := some (json status body), next := Next.called }

/-! ## The Throttle Gate: `security.middleware.js` -/

/-- Line 7: `req.user ? req.user.role : 'guest'`. -/
def requestRole (req : Req) : JsVal :=
  match req.user with
  | some u => u.get "role"
  | none => JsVal.str "guest"

/-- Lines 10 to 22: the `switch (role)` that picks `limit`. -/
def roleLimit (role : JsVal) : Nat :=
  if role = JsVal.str "admin" then 20
  else if role = JsVal.str "user" then 10
  else 5

/-- Lines 23 to 30: the rule handed to `aj.withRule`. -/
def throttleRule (req : Req) : SlidingWindow :=
  { mode := "LIVE", interval := "1m", max := roleLimit (requestRole req),
    name := (requestRole req).toStr ++ "-rate-limit" }

/-- The Throttle Gate. -/
def securityMiddleware (env : Env) : Handler := fun req w =>
  let rule := throttleRule req
  let w1 := w.log (Event.protect rule)
  match env.protect rule req with
  | Except.ok decision =>
    if decision.isDenied && decision.reason.isBot then
      (req, reply 403 [("error", Field.text "Forbidden"),
        ("message", Field.text "Automated requests are not allowed.")], w1)
    else if decision.isDenied && decision.reason.isShield then
      (req, reply 403 [("error", Field.text "Forbidden"),
        ("message", Field.text "Automated requests are not allowed.")], w1)
    else if decision.isDenied && decision.reason.isRateLimit then
      (req, reply 429 [("error", Field.text "Forbidden"),
        ("message", Field.text "Too many requests. Please slow down.")], w1)
    else
      (req, { response := none, next := Next.called }, w1)
  | Except.error _ =>
    (req, reply 500 [("error", Field.text "Internal server error."),
      ("message", Field.text "Something went wrong with the security middleware.")], w1)

/-! ## The User Directory services: `users.service.js` -/

/-- The error the database driver throws when a query compares the integer `id` column with
a value the column cannot hold. It has no `status`; its message stands for the text of the
driver, which no caller reads. -/
def outOfRange : JsError :=
  { message := "value out of range for type integer", status := none }

/-- Service `getAllUsers`: every row, projected. -/
def getAllUsers (w : World) : Except JsError (List UserView) × World :=
  let w0 := w.log (Event.service "getAllUsers")
  (Except.ok (w0.users.map UserRecord.view), w0)

/-- Service `getUserById`: the first row with that id, projected, or `undefined`; the query
throws when the column cannot hold the id, and the `catch` rethrows the same error. -/
def getUserById (id : Nat) (w : World) : Except JsError (Option UserView) × World :=
  let w0 := w.log (Event.service "getUserById")
  if w0.idMax < id then (Except.error outOfRange, w0)
  else (Except.ok (((w0.users.filter (fun r => r.id == id)).map UserRecord.view).head?), w0)

/-- The row after `.set({ ...updates, updatedAt: new Date() })`: the fields present in
`updates` replace the columns of the same name. -/
def UserRecord.set (r : UserRecord) (updates : UpdateData) (now : Nat) : UserRecord :=
  { r with
    name := updates.name.getD r.name
    email := updates.email.getD r.email
    password := updates.password.getD r.password
    role := (updates.role.map RoleEnum.toStr).getD r.role
    updatedAt := now }

/-- Service `updateUser`: look the row up (the query throws when the column cannot hold the
id), throw a plain `Error('User not found')` when it is absent, otherwise update it and
return the updated row. The `catch` rethrows the same error. -/
def updateUser (now : Nat) (id : Nat) (updates : UpdateData) (w : World) :
    Except JsError (Option UserView) × World :=
  let w0 := w.log (Event.service "updateUser")
  if w0.idMax < id then (Except.error outOfRange, w0)
  else
    match (w0.users.filter (fun r => r.id == id)).head? with
    | none => (Except.error { message := "User not found", status := none }, w0)
    | some _ =>
      let rows := w0.users.map (fun r => if r.id == id then r.set updates now else r)
      let updated := ((rows.filter (fun r => r.id == id)).map UserRecord.view).head?
      (Except.ok updated, { w0 with users := rows })

/-- Service `deleteUser`: delete the rows with that id, returning them (the query throws,
deleting nothing, when the column cannot hold the id); when none was deleted throw an
`Error('User not found')` whose `status` is 404. The `catch` rethrows the same error. -/
def deleteUser (id : Nat) (w : World) : Except JsError Nat × World :=
  let w0 := w.log (Event.service "deleteUser")
  if w0.idMax < id then (Except.error outOfRange, w0)
  else
    let deleted := (w0.users.filter (fun r => r.id == id)).map (fun r => r.id)
    let w1 := { w0 with users := w0.users.filter (fun r => !(r.id == id)) }
    match deleted.head? with
    | none => (Except.error { message := "User not found", status := some 404 }, w1)
    | some d => (Except.ok d, w1)

/-- Service `deleteAllUsers`: delete every row; the result carries the row count. -/
def deleteAllUsers (w : World) : Except JsError Nat × World :=
  let w0 := w.log (Event.service "deleteAllUsers")
  (Except.ok w0.users.length, { w0 with users := [] })

/-! ## The user controllers: `users.controller.js` -/

/-- Controller `fetchAllUsers`. -/
def fetchAllUsers : Handler := fun req w =>
  let w0 := w.log (Event.controller "fetchAllUsers")
  match getAllUsers w0 with
  | (Except.ok allUsers, w1) =>
    (req, replyThenNext 200 [("message", Field.text "Users retrieved successfully"),
      ("users", Field.users allUsers), ("count", Field.count allUsers.length)], w1)
  | (Except.error _, w1) =>
    (req, reply 500 [("message", Field.text "Internal Server Error")], w1)

/-- Controller `fetchUserById`. -/
def fetchUserById : Handler := fun req w =>
  let w0 := w.log (Event.controller "fetchUserById")
  match req.idParams with
  | Except.error e =>
    (req, reply 400 [("message", Field.text "Invalid ID"), ("errors", Field.text e)], w0)
  | Except.ok id =>
    match getUserById id w0 with
    | (Except.ok none, w1) => (req, reply 404 [("message", Field.text "User not found")], w1)
    | (Except.ok (some user), w1) =>
      (req, replyThenNext 200 [("message", Field.text "User retrieved successfully"),
        ("user", Field.user (some user))], w1)
    | (Except.error _, w1) =>
      (req, reply 500 [("message", Field.text "Internal Server Error")], w1)

/-- Controller `updateUserController`. -/
def updateUserController (env : Env) : Handler := fun req w =>
  let w0 := w.log (Event.controller "updateUserController")
  match req.updateInput with
  | Except.error e =>
    (req, reply 400 [("message", Field.text "Invalid request"), ("errors", Field.text e)], w0)
  | Except.ok (id, updates) =>
    match req.user with
    | none => (req, reply 401 [("message", Field.text "Unauthorized")], w0)
    | some user =>
      let isSelf := (user.get "id").strictEq (JsVal.num id)
      let isAdmin := (user.get "role").strictEq (JsVal.str "admin")
      if !isSelf && !isAdmin then
        (req, reply 403 [("message", Field.text "Forbidden: cannot update other users")], w0)
      else if updates.roleVal.truthy && !isAdmin then
        (req, reply 403 [("message", Field.text "Forbidden: only admin can change role")], w0)
      else
        match updateUser env.now id updates w0 with
        | (Except.ok updated, w1) =>
          (req, replyThenNext 200 [("message", Field.text "User updated successfully"),
            ("user", Field.user updated)], w1)
        | (Except.error error, w1) =>
          let status := error.statusOr500
          (req, reply status [("message", Field.text
            (if status = 404 then "User not found" else "Internal Server Error"))], w1)

/-- Controller `deleteUserController`. -/
def deleteUserController : Handler := fun req w =>
  let w0 := w.log (Event.controller "deleteUserController")
  match req.idParams with
  | Except.error e =>
    (req, reply 400 [("message", Field.text "Invalid ID"), ("errors", Field.text e)], w0)
  | Except.ok id =>
    match req.user with
    | none => (req, reply 401 [("message", Field.text "Unauthorized")], w0)
    | some user =>
      let isSelf := (user.get "id").strictEq (JsVal.num id)
      let isAdmin := (user.get "role").strictEq (JsVal.str "admin")
      if !isSelf && !isAdmin then
        (req, reply 403 [("message", Field.text "Forbidden: cannot delete other users")], w0)
      else
        match deleteUser id w0 with
        | (Except.ok _, w1) =>
          (req, replyThenNext 200 [("message", Field.text "User deleted successfully")], w1)
        | (Except.error error, w1) =>
          let status := error.statusOr500
          (req, reply status [("message", Field.text
            (if status = 404 then "User not found" else "Internal Server Error"))], w1)

/-- Controller `deleteAllUsersController`. -/
def deleteAllUsersController : Handler := fun req w =>
  let w0 := w.log (Event.controller "deleteAllUsersController")
  let rejected : Bool :=
    match req.user with
    | none => true
    | some user => !((user.get "role").strictEq (JsVal.str "admin"))
  if rejected then
    (req, reply 403 [("message", Field.text "Forbidden: only admin can delete all users")], w0)
  else
    match deleteAllUsers w0 with
    | (Except.ok _, w1) =>
      (req, replyThenNext 200 [("message", Field.text "All users deleted successfully")], w1)
    | (Except.error _, w1) =>
      (req, reply 500 [("message", Field.text "Internal Server Error")], w1)

/-! ## Signup: `auth.service.js` and `auth.controller.js` -/

/-- Service `hashPassword`: `bcrypt.hash(password, 10)`, a failure rethrown with a prefix. -/
def hashPassword (env : Env) (password : String) : Except JsError String :=
  match env.bcryptHash password 10 with
  | Except.ok hashed => Except.ok hashed
  | Except.error error =>
    Except.error { message := "Error hashing password: " ++ error.message, status := none }

/-- The `try` block of `createUser`: look for a row with the email (`limit(1)`), throw when
there is one, otherwise hash the password and insert the row. -/
def createUserAttempt (env : Env) (name email password role : String) (w : World) :
    Except JsError UserView × World :=
  let existingUser := (w.users.filter (fun r => r.email == email)).take 1
  if existingUser.length > 0 then
    (Except.error { message := "User with this email already exists.", status := none }, w)
  else
    match hashPassword env password with
    | Except.error error => (Except.error error, w)
    | Except.ok hashedPassword =>
      let row : UserRecord :=
        { id := w.seq + 1, name := name, email := email, password := hashedPassword,
          role := role, createdAt := env.now, updatedAt := env.now }
      (Except.ok { id := row.id, name := row.name, email := row.email, role := row.role,
                   createdAt := row.createdAt, updatedAt := none },
       { w with users := w.users ++ [row], seq := w.seq + 1 })

/-- Service `createUser`: the `try` block, and the `catch` that throws a new error whose
message is `'Error creating user: '` followed by the caught message. -/
def createUser (env : Env) (name email password role : String) (w : World) :
    Except JsError UserView × World :=
  let w0 := w.log (Event.service "createUser")
  match createUserAttempt env name email password role w0 with
  | (Except.ok newUser, w1) => (Except.ok newUser, w1)
  | (Except.error error, w1) =>
    (Except.error { message := "Error creating user: " ++ error.message, status := none }, w1)

/-- The `try` block of `signup` after validation: create the user, sign the credential, set
the cookie and answer 201. -/
def signupAttempt (env : Env) (data : SignUpData) (w : World) : Except JsError Outcome × World :=
  match createUser env data.name data.email data.password data.role w with
  | (Except.error error, w1) => (Except.error error, w1)
  | (Except.ok user, w1) =>
    match env.sign [("userId", JsVal.num user.id), ("email", JsVal.str user.email),
                    ("role", JsVal.str user.role)] with
    | Except.error error => (Except.error error, w1)
    | Except.ok token =>
      let res : Response :=
        { json 201 [("message", Field.text "User signed up successfully."),
            ("user", Field.account user.id user.name user.email user.role)] with
          cookies := [("token", token)] }
      (Except.ok { response := some res, next := Next.notCalled }, w1)

/-- Controller `signup`. -/
def signup (env : Env) : Handler := fun req w =>
  let w0 := w.log (Event.controller "signup")
  match req.signUpInput with
  | Except.error e =>
    (req, reply 400 [("error", Field.text "Invalid input data."), ("details", Field.text e)], w0)
  | Except.ok data =>
    match signupAttempt env data w0 with
    | (Except.ok outcome, w1) => (req, outcome, w1)
    | (Except.error error, w1) =>
      if error.message = "User with this email already exists." then
        (req, reply 409 [("message", Field.text "Email already exists.")], w1)
      else
        (req, { response := none, next := Next.calledWith error }, w1)

/-! ## The pipeline: `app.js` and `users.routes.js` -/

/-- Modelled from the spec: the Authenticator `authenticateToken`
(`middleware/auth.middleware.js` is not among the sources). It reads the credential from the
cookie, attaches the verified identity, or none, to the request and always proceeds. -/
def authenticateToken (env : Env) : Handler := fun req w =>
  let identity : Option JsObj :=
    match req.token with
    | none => none
    | some credential => env.verify credential
  ({ req with user := identity }, { response := none, next := Next.called },
   w.log (Event.authenticateToken identity))

/-- Modelled from the spec: the Access Controller `requireRole(roles)`
(`middleware/auth.middleware.js` is not among the sources). Unauthorized without an identity,
Forbidden when the role of the identity is not among the permitted ones, otherwise proceed. -/
def requireRole (roles : List String) : Handler := fun req w =>
  let w0 := w.log (Event.requireRole roles)
  match req.user with
  | none => (req, reply 401 [("message", Field.text "Unauthorized")], w0)
  | some user =>
    if roles.any (fun r => (user.get "role").strictEq (JsVal.str r)) then
      (req, { response := none, next := Next.called }, w0)
    else
      (req, reply 403 [("message", Field.text "Forbidden")], w0)

/-- A third-party middleware of `app.js` (helmet, cors, cookie parser, body parsers, request
log): it leaves `req.user` alone and proceeds. -/
def passThrough : Handler := fun req w =>
  (req, { response := none, next := Next.called }, w)

/-- Run handlers in order: each one runs when the one before it called `next()`; the chain
stops at the first handler that does not. The response is the first one sent. -/
def runChain : List Handler → Handler
  | [], req, w => (req, { response := none, next := Next.called }, w)
  | h :: hs, req, w =>
    match h req w with
    | (req1, o, w1) =>
      match o.next with
      | Next.called =>
        match runChain hs req1 w1 with
        | (req2, o2, w2) =>
          (req2, { response := o.response.orElse (fun _ => o2.response), next := o2.next }, w2)
      | _ => (req1, o, w1)

/-- The router of `users.routes.js`: the handlers of the route matching the method and the
path below the mount point. -/
def usersRoutes (env : Env) (method : Method) (sub : List String) : List Handler :=
  match method, sub with
  | Method.GET, [] => [authenticateToken env, requireRole ["admin"], fetchAllUsers]
  | Method.GET, [_] => [authenticateToken env, fetchUserById]
  | Method.PUT, [_] =>
    [authenticateToken env, requireRole ["admin", "user"], updateUserController env]
  | Method.DELETE, [_] => [authenticateToken env, requireRole ["admin"], deleteUserController]
  | Method.DELETE, [] =>
    [authenticateToken env, requireRole ["admin"], deleteAllUsersController]
  | _, _ => []

/-- The application of `app.js`, lines 13 to 25: the global middleware in registration order,
the Throttle Gate, then the router mounted on the path. The three plain routes registered
after the mounts (`/health`, `/api`, `/`) are outside the model: a request to another path
ends the chain after the gate. -/
def app (env : Env) : Handler := fun req w =>
  let mounted : List Handler :=
    match req.path with
    | "api" :: "auth" :: sub => env.authRoutes req.method sub
    | "api" :: "users" :: sub => usersRoutes env req.method sub
    | _ => []
  runChain ([passThrough, passThrough, passThrough, passThrough, passThrough, passThrough,
             securityMiddleware env] ++ mounted) req w

/-! ## Sample inputs -/

/-- An administrator identity. -/
def sampleAdmin : Identity := { userId := 1, email := "root@example.com", role := "admin" }

/-- An ordinary identity. -/
def sampleUser : Identity := { userId := 7, email := "seven@example.com", role := "user" }

/-- A directory holding the records of the two sample identities. -/
def sampleWorld : World :=
  { users :=
      [{ id := 1, name := "Root", email := "root@example.com", password := "h1",
         role := "admin", createdAt := 10, updatedAt := 10 },
       { id := 7, name := "Seven", email := "seven@example.com", password := "h7",
         role := "user", createdAt := 20, updatedAt := 20 }]
    seq := 7
    idMax := 2147483647
    trace := [] }

/-- An environment whose Verdict Provider gives the same outcome on every call, and whose
Token Service knows one credential for each sample identity. -/
def sampleEnv (verdict : Except JsError Decision) : Env :=
  { protect := fun _ _ => verdict
    verify := fun credential =>
      if credential = "admin-credential" then some sampleAdmin.payload
      else if credential = "user-credential" then some sampleUser.payload
      else none
    sign := fun _ => Except.ok "signed"
    bcryptHash := fun password _ => Except.ok ("hashed:" ++ password)
    now := 1000
    authRoutes := fun _ _ => [] }

/-- The verdict "allowed". -/
def allowed : Except JsError Decision := Except.ok { denied := false, reason := Reason.other }

/-- A request without credential, identity or parsed input. -/
def bareReq : Req :=
  { method := Method.GET, path := [], token := none, user := none,
    idParams := Except.error "no params", updateInput := Except.error "no input",
    signUpInput := Except.error "no input" }

/-- A validated update body that only renames. -/
def rename : UpdateData :=
  { name := some "Renamed", email := none, password := none, role := none }

/-- A validated update body that sets the role to admin. -/
def promote : UpdateData :=
  { name := none, email := none, password := none, role := some RoleEnum.admin }

/-- The request `PUT /api/users/7` carrying the administrator credential, as it arrives. -/
def adminPut : Req :=
  { bareReq with
    method := Method.PUT
    path := ["api", "users", "7"]
    token := some "admin-credential"
    idParams := Except.ok 7
    updateInput := Except.ok (7, rename) }

/-- The ordinary identity acting on its own id 7: a rename, or a delete. -/
def selfReq : Req :=
  { bareReq with
    user := some sampleUser.payload
    idParams := Except.ok 7
    updateInput := Except.ok (7, rename) }

/-- The ordinary identity trying to make itself admin. -/
def selfPromote : Req :=
  { bareReq with
    user := some sampleUser.payload
    idParams := Except.ok 7
    updateInput := Except.ok (7, promote) }

/-- The administrator acting on id 5, which the sample directory does not hold. -/
def adminOnAbsent : Req :=
  { bareReq with
    user := some sampleAdmin.payload
    idParams := Except.ok 5
    updateInput := Except.ok (5, rename) }

/-- The administrator acting on a validated id that the `id` column cannot hold. -/
def adminOnHuge : Req :=
  { bareReq with
    user := some sampleAdmin.payload
    idParams := Except.ok 100000000000000000000
    updateInput := Except.ok (100000000000000000000, rename) }

/-- The environment with another Verdict Provider. -/
def Env.withProtect (env : Env) (p : SlidingWindow → Req → Except JsError Decision) : Env :=
  { env with protect := p }

/-- A Verdict Provider that denies, with a rate-limit reason, exactly the call made with the
given rule on the given request, and allows every other call. -/
def probe (rule : SlidingWindow) (req : Req) : SlidingWindow → Req → Except JsError Decision :=
  fun r q =>
    if r = rule ∧ q = req then Except.ok { denied := true, reason := Reason.rateLimit }
    else allowed

/-- A validated signup whose email is the one of record 7. -/
def duplicateSignup : Req :=
  { bareReq with
    method := Method.POST
    path := ["api", "auth", "signup"]
    signUpInput := Except.ok
      { name := "Other", email := "seven@example.com", password := "password1", role := "user" } }

/-! ## Lemmas on the embedding -/

theorem payload_role (i : Identity) : i.payload.get "role" = JsVal.str i.role := by
  simp [Identity.payload, JsObj.get, List.lookup]

theorem payload_id (i : Identity) : i.payload.get "id" = JsVal.undefined := by
  simp [Identity.payload, JsObj.get, List.lookup]

theorem identity_never_self (i : Identity) (id : Nat) :
    (i.payload.get "id").strictEq (JsVal.num id) = false := by
  simp [payload_id, JsVal.strictEq]

theorem nonadmin_identity_update_forbidden (env : Env) (req : Req) (w : World) (i : Identity)
    (id : Nat) (updates : UpdateData) (huser : req.user = some i.payload)
    (hinput : req.updateInput = Except.ok (id, updates)) (hrole : i.role ≠ "admin") :
    (updateUserController env req w).2.1
      = reply 403 [("message", Field.text "Forbidden: cannot update other users")] := by
  have hadmin : (i.payload.get "role").strictEq (JsVal.str "admin") = false := by
    simp [payload_role, JsVal.strictEq, hrole]
  unfold updateUserController
  simp [hinput, huser, hadmin, identity_never_self]

theorem securityMiddleware_trace (env : Env) (req : Req) (w : World) :
    (securityMiddleware env req w).2.2 = w.log (Event.protect (throttleRule req)) := by
  unfold securityMiddleware
  simp only []
  split
  · split_ifs <;> rfl
  · rfl

theorem filter_id_absent (users : List UserRecord) (id : Nat)
    (h : ∀ r ∈ users, r.id ≠ id) :
    users.filter (fun r => r.id == id) = []
    ∧ users.filter (fun r => !(r.id == id)) = users := by
  constructor
  · rw [List.filter_eq_nil_iff]
    intro r hr
    simpa using h r hr
  · rw [List.filter_eq_self]
    intro r hr
    simpa using h r hr

theorem filter_id_present (users : List UserRecord) (id : Nat)
    (h : ∃ r ∈ users, r.id = id) :
    ∃ d, ((users.filter (fun r => r.id == id)).map (fun r => r.id)).head? = some d := by
  obtain ⟨r, hr, hid⟩ := h
  have hmem : r ∈ users.filter (fun r => r.id == id) := by
    simp [List.mem_filter, hr, hid]
  cases hf : users.filter (fun r => r.id == id) with
  | nil => rw [hf] at hmem; cases hmem
  | cons a t => exact ⟨a.id, rfl⟩

theorem ownership_guard_open (user : JsObj) (id : Nat)
    (hauth : user.get "id" = JsVal.num id ∨ user.get "role" = JsVal.str "admin") :
    (!(user.get "id").strictEq (JsVal.num id)
      && !(user.get "role").strictEq (JsVal.str "admin")) = false := by
  rcases hauth with h | h <;> simp [JsVal.strictEq, h]

theorem deleteUserController_absent (req : Req) (w : World) (user : JsObj) (id : Nat)
    (huser : req.user = some user) (hid : req.idParams = Except.ok id)
    (hauth : user.get "id" = JsVal.num id ∨ user.get "role" = JsVal.str "admin")
    (hrange : id ≤ w.idMax) (habsent : ∀ r ∈ w.users, r.id ≠ id) :
    (deleteUserController req w).2.1 = reply 404 [("message", Field.text "User not found")]
    ∧ (deleteUserController req w).2.2.users = w.users
    ∧ (deleteUserController req w).2.2.seq = w.seq
    ∧ (deleteUserController req w).2.2.idMax = w.idMax := by
  have hguard := ownership_guard_open user id hauth
  have hnot : ¬ w.idMax < id := Nat.not_lt.mpr hrange
  obtain ⟨h1, h2⟩ := filter_id_absent w.users id habsent
  unfold deleteUserController
  simp only [hid, huser, hguard]
  simp [deleteUser, World.log, h1, h2, hnot, JsError.statusOr500]

theorem deleteUserController_present (req : Req) (w : World) (user : JsObj) (id : Nat)
    (huser : req.user = some user) (hid : req.idParams = Except.ok id)
    (hauth : user.get "id" = JsVal.num id ∨ user.get "role" = JsVal.str "admin")
    (hrange : id ≤ w.idMax) (hpresent : ∃ r ∈ w.users, r.id = id) :
    (deleteUserController req w).2.1
      = replyThenNext 200 [("message", Field.text "User deleted successfully")]
    ∧ (deleteUserController req w).2.2.users = w.users.filter (fun r => r.id ≠ id)
    ∧ (deleteUserController req w).2.2.idMax = w.idMax := by
  have hguard := ownership_guard_open user id hauth
  have hnot : ¬ w.idMax < id := Nat.not_lt.mpr hrange
  obtain ⟨d, hd⟩ := filter_id_present w.users id hpresent
  unfold deleteUserController
  simp only [hid, huser, hguard]
  simp only [deleteUser, World.log, hnot, if_false, hd]
  refine ⟨rfl, ?_, rfl⟩
  show w.users.filter (fun r => !(r.id == id)) = w.users.filter (fun r => r.id ≠ id)
  congr 1
  funext r
  by_cases h : r.id = id <;> simp [h]

theorem deleteUserController_beyond (req : Req) (w : World) (user : JsObj) (id : Nat)
    (huser : req.user = some user) (hid : req.idParams = Except.ok id)
    (hauth : user.get "id" = JsVal.num id ∨ user.get "role" = JsVal.str "admin")
    (hbeyond : w.idMax < id) :
    (deleteUserController req w).2.1
      = reply 500 [("message", Field.text "Internal Server Error")]
    ∧ (deleteUserController req w).2.2.users = w.users
    ∧ (deleteUserController req w).2.2.seq = w.seq := by
  have hguard := ownership_guard_open user id hauth
  unfold deleteUserController
  simp only [hid, huser, hguard]
  simp [deleteUser, World.log, hbeyond, outOfRange, JsError.statusOr500]

/-- On an absent id the ordinary identity acting on its own id is answered 403, not 404. -/
theorem self_delete_absent_forbidden :
    (deleteUserController { selfReq with idParams := Except.ok 9 } sampleWorld).2.1
      = reply 403 [("message", Field.text "Forbidden: cannot delete other users")] := by
  decide

/-! ## The Throttle Gate -/

/-- C1: for every request the gate calls the Verdict Provider with the rule
`throttleRule req` and with no other rule: a provider that denies exactly the call made with
a given rule is answered 429 when that rule is `throttleRule req` and passed otherwise, and
an arbitrary provider is consulted only at `throttleRule req`. The window of the rule is
always one minute; the role is the role of the attached identity, or guest when none is
attached; the rule received by the provider has maximum 20 for role admin, 10 for role user
and 5 for guest, so the limits increase strictly with privilege. -/
theorem throttle_tier_selection (env : Env) (req : Req) (w : World) (i : Identity)
    (rule : SlidingWindow) :
    (securityMiddleware (env.withProtect (probe rule req)) req w).2.1
        = (if rule = throttleRule req then
            reply 429 [("error", Field.text "Forbidden"),
              ("message", Field.text "Too many requests. Please slow down.")]
          else { response := none, next := Next.called })
    ∧ securityMiddleware env req w
        = securityMiddleware
            (env.withProtect (fun _ _ => env.protect (throttleRule req) req)) req w
    ∧ (securityMiddleware env req w).2.2.trace = w.trace ++ [Event.protect (throttleRule req)]
    ∧ (throttleRule req).interval = "1m"
    ∧ requestRole { req with user := some i.payload } = JsVal.str i.role
    ∧ requestRole { req with user := none } = JsVal.str "guest"
    ∧ (throttleRule req).max =
        (if requestRole req = JsVal.str "admin" then 20
         else if requestRole req = JsVal.str "user" then 10 else 5)
    ∧ (securityMiddleware
          (env.withProtect (probe
            { mode := "LIVE", interval := "1m", max := 20, name := "admin-rate-limit" }
            { req with user := some { i with role := "admin" }.payload }))
          { req with user := some { i with role := "admin" }.payload } w).2.1
        = reply 429 [("error", Field.text "Forbidden"),
            ("message", Field.text "Too many requests. Please slow down.")]
    ∧ (securityMiddleware
          (env.withProtect (probe
            { mode := "LIVE", interval := "1m", max := 10, name := "user-rate-limit" }
            { req with user := some { i with role := "user" }.payload }))
          { req with user := some { i with role := "user" }.payload } w).2.1
        = reply 429 [("error", Field.text "Forbidden"),
            ("message", Field.text "Too many requests. Please slow down.")]
    ∧ (securityMiddleware
          (env.withProtect (probe
            { mode := "LIVE", interval := "1m", max := 5, name := "guest-rate-limit" }
            { req with user := none }))
          { req with user := none } w).2.1
        = reply 429 [("error", Field.text "Forbidden"),
            ("message", Field.text "Too many requests. Please slow down.")]
    ∧ (throttleRule { req with user := some { i with role := "admin" }.payload }).max = 20
    ∧ (throttleRule { req with user := some { i with role := "user" }.payload }).max = 10
    ∧ (throttleRule { req with user := none }).max = 5
    ∧ (throttleRule { req with user := none }).max
        < (throttleRule { req with user := some { i with role := "user" }.payload }).max
    ∧ (throttleRule { req with user := some { i with role := "user" }.payload }).max
        < (throttleRule { req with user := some { i with role := "admin" }.payload }).max := by
  have hadminRule : throttleRule { req with user := some { i with role := "admin" }.payload }
      = { mode := "LIVE", interval := "1m", max := 20, name := "admin-rate-limit" } := by
    simp [throttleRule, requestRole, payload_role, roleLimit, JsVal.toStr]
  have huserRule : throttleRule { req with user := some { i with role := "user" }.payload }
      = { mode := "LIVE", interval := "1m", max := 10, name := "user-rate-limit" } := by
    simp [throttleRule, requestRole, payload_role, roleLimit, JsVal.toStr]
  have hguestRule : throttleRule { req with user := none }
      = { mode := "LIVE", interval := "1m", max := 5, name := "guest-rate-limit" } := by
    simp [throttleRule, requestRole, roleLimit, JsVal.toStr]
  have hprobe : ∀ (q : Req) (r : SlidingWindow),
      (securityMiddleware (env.withProtect (probe r q)) q w).2.1
        = (if r = throttleRule q then
            reply 429 [("error", Field.text "Forbidden"),
              ("message", Field.text "Too many requests. Please slow down.")]
          else { response := none, next := Next.called }) := by
    intro q r
    unfold securityMiddleware
    by_cases h : r = throttleRule q
    · simp [Env.withProtect, probe, h, Decision.isDenied, Reason.isBot, Reason.isShield,
        Reason.isRateLimit]
    · have h2 : ¬ throttleRule q = r := fun e => h e.symm
      simp [Env.withProtect, probe, h, h2, allowed, Decision.isDenied]
  have hadmin : (throttleRule { req with user := some { i with role := "admin" }.payload }).max
      = 20 := by rw [hadminRule]
  have huser : (throttleRule { req with user := some { i with role := "user" }.payload }).max
      = 10 := by rw [huserRule]
  have hguest : (throttleRule { req with user := none }).max = 5 := by rw [hguestRule]
  refine ⟨hprobe req rule, rfl, ?_, rfl, ?_, rfl, rfl, ?_, ?_, ?_, hadmin, huser, hguest,
    ?_, ?_⟩
  · rw [securityMiddleware_trace]; rfl
  · simp [requestRole, payload_role]
  · rw [hprobe, if_pos hadminRule.symm]
  · rw [hprobe, if_pos huserRule.symm]
  · rw [hprobe, if_pos hguestRule.symm]
  · rw [hguest, huser]; decide
  · rw [huser, hadmin]; decide

/-- C3: whatever the Verdict Provider call gives, the gate produces exactly one result,
either a response without calling the next stage or the hand-over without a response, and
that result is: 403 "Automated requests are not allowed." for a denial with a bot reason, the
same 403 for a shield reason, 429 "Too many requests. Please slow down." for a rate-limit
reason, the hand-over when the verdict is not denied, and 500 with its own message, without
hand-over, when the call throws. -/
theorem verdict_interpretation (env : Env) (req : Req) (w : World) :
    (((securityMiddleware env req w).2.1.response = none
        ∧ (securityMiddleware env req w).2.1.next = Next.called)
      ∨ (∃ res, (securityMiddleware env req w).2.1.response = some res
        ∧ (securityMiddleware env req w).2.1.next = Next.notCalled))
    ∧ (securityMiddleware env req w).2.1 =
        (match env.protect (throttleRule req) req with
         | Except.error _ =>
           reply 500 [("error", Field.text "Internal server error."),
             ("message", Field.text "Something went wrong with the security middleware.")]
         | Except.ok { denied := true, reason := Reason.bot } =>
           reply 403 [("error", Field.text "Forbidden"),
             ("message", Field.text "Automated requests are not allowed.")]
         | Except.ok { denied := true, reason := Reason.shield } =>
           reply 403 [("error", Field.text "Forbidden"),
             ("message", Field.text "Automated requests are not allowed.")]
         | Except.ok { denied := true, reason := Reason.rateLimit } =>
           reply 429 [("error", Field.text "Forbidden"),
             ("message", Field.text "Too many requests. Please slow down.")]
         | Except.ok { denied := true, reason := Reason.other } =>
           { response := none, next := Next.called }
         | Except.ok { denied := false, reason := _ } =>
           { response := none, next := Next.called })
    ∧ "Something went wrong with the security middleware."
        ≠ "Automated requests are not allowed."
    ∧ "Something went wrong with the security middleware."
        ≠ "Too many requests. Please slow down." := by
  refine ⟨?_, ?_, by decide, by decide⟩
  · unfold securityMiddleware
    simp only []
    split
    · split_ifs
      · exact Or.inr ⟨_, rfl, rfl⟩
      · exact Or.inr ⟨_, rfl, rfl⟩
      · exact Or.inr ⟨_, rfl, rfl⟩
      · exact Or.inl ⟨rfl, rfl⟩
    · exact Or.inr ⟨_, rfl, rfl⟩
  · unfold securityMiddleware
    simp only []
    cases h : env.protect (throttleRule req) req with
    | error e => rfl
    | ok d =>
      obtain ⟨den, rsn⟩ := d
      cases den <;> cases rsn <;> rfl

/-- C10: a denial whose reason is none of bot, shield and rate-limit passes the gate exactly
as an allowed verdict does (no response, the next stage is called, same world); and the gate
calls the next stage if and only if the provider call returned a verdict that is not a
denial with a bot, shield or rate-limit reason. -/
theorem unlisted_denial_passes (env : Env) (req : Req) (w : World) :
    (∀ d : Decision, env.protect (throttleRule req) req = Except.ok d → d.denied = true →
        d.reason ≠ Reason.bot → d.reason ≠ Reason.shield → d.reason ≠ Reason.rateLimit →
        (securityMiddleware env req w).2.1 = { response := none, next := Next.called }
        ∧ securityMiddleware env req w
            = securityMiddleware { env with protect := fun _ _ => allowed } req w)
    ∧ ((securityMiddleware env req w).2.1.next = Next.called ↔
        ∃ d : Decision, env.protect (throttleRule req) req = Except.ok d
          ∧ ¬ (d.denied = true ∧ (d.reason = Reason.bot ∨ d.reason = Reason.shield
                ∨ d.reason = Reason.rateLimit))) := by
  constructor
  · intro d hd hden h1 h2 h3
    obtain ⟨den, rsn⟩ := d
    simp only at hden h1 h2 h3
    subst hden
    cases rsn <;> first | contradiction | skip
    simp [securityMiddleware, hd, allowed, Decision.isDenied, Reason.isBot, Reason.isShield,
      Reason.isRateLimit]
  · unfold securityMiddleware
    simp only []
    cases h : env.protect (throttleRule req) req with
    | error e => simp [reply]
    | ok d =>
      obtain ⟨den, rsn⟩ := d
      cases den <;> cases rsn <;>
        simp [reply, Decision.isDenied, Reason.isBot, Reason.isShield, Reason.isRateLimit]

/-- Witness of C10 on a denial with another reason. -/
theorem unlisted_denial_passes_witness :
    (securityMiddleware (sampleEnv (Except.ok { denied := true, reason := Reason.other }))
        bareReq sampleWorld).2.1 = { response := none, next := Next.called } :=
  ((unlisted_denial_passes (sampleEnv (Except.ok { denied := true, reason := Reason.other }))
      bareReq sampleWorld).1 { denied := true, reason := Reason.other } rfl rfl
      (by decide) (by decide) (by decide)).1

/-! ## The pipeline -/

/-- C2 (evaluation of the code): on `PUT /api/users/7` with the administrator credential the
gate runs first, before the Authenticator has attached anything, and hands the provider the
guest rule (5 per minute); the Authenticator, the Access Controller and the handler follow.
With the identity attached the rule would have been the admin one (20 per minute). -/
theorem gate_runs_before_authenticator :
    (app (sampleEnv allowed) adminPut sampleWorld).2.2.trace =
      [Event.protect { mode := "LIVE", interval := "1m", max := 5, name := "guest-rate-limit" },
       Event.authenticateToken (some sampleAdmin.payload),
       Event.requireRole ["admin", "user"],
       Event.controller "updateUserController",
       Event.service "updateUser"]
    ∧ (sampleEnv allowed).verify "admin-credential" = some sampleAdmin.payload
    ∧ throttleRule { adminPut with user := some sampleAdmin.payload } =
        { mode := "LIVE", interval := "1m", max := 20, name := "admin-rate-limit" } := by
  decide

/-! ## The user controllers -/

/-- C4 (evaluation of the code): the identity with `userId` 7 and role user, acting on the
existing record 7, is answered 403 by both `updateUserController` and
`deleteUserController`, and the directory is left as it was: the controllers compare
`req.user.id`, which the identity payload does not have, with the target. -/
theorem self_request_rejected :
    sampleUser.userId = 7
    ∧ sampleWorld.users.any (fun r => r.id == 7) = true
    ∧ (updateUserController (sampleEnv allowed) selfReq sampleWorld).2.1
        = reply 403 [("message", Field.text "Forbidden: cannot update other users")]
    ∧ (updateUserController (sampleEnv allowed) selfReq sampleWorld).2.2.users
        = sampleWorld.users
    ∧ (deleteUserController selfReq sampleWorld).2.1
        = reply 403 [("message", Field.text "Forbidden: cannot delete other users")]
    ∧ (deleteUserController selfReq sampleWorld).2.2.users = sampleWorld.users := by
  decide

/-- C5: when the attached identity is not an admin and the validated body has a role field,
`updateUserController` answers 403 without calling the next stage, whatever the target id,
and never calls `updateUser`: the directory is unchanged and the trace gains only the entry
of the controller. -/
theorem role_escalation_guard (env : Env) (req : Req) (w : World) (user : JsObj) (id : Nat)
    (updates : UpdateData) (r : RoleEnum)
    (huser : req.user = some user) (hinput : req.updateInput = Except.ok (id, updates))
    (hrole : updates.role = some r) (hnotAdmin : user.get "role" ≠ JsVal.str "admin") :
    (∃ msg, (updateUserController env req w).2.1 = reply 403 [("message", Field.text msg)])
    ∧ (updateUserController env req w).2.2.users = w.users
    ∧ (updateUserController env req w).2.2.seq = w.seq
    ∧ (updateUserController env req w).2.2.trace
        = w.trace ++ [Event.controller "updateUserController"] := by
  have htruthy : updates.roleVal.truthy = true := by
    cases r <;> simp [UpdateData.roleVal, hrole, RoleEnum.toStr, JsVal.truthy]
  have hadmin : (user.get "role").strictEq (JsVal.str "admin") = false := by
    simp [JsVal.strictEq, hnotAdmin]
  unfold updateUserController
  simp only [hinput, huser, hadmin, htruthy]
  by_cases hself : (user.get "id").strictEq (JsVal.num id) = true
  · simp only [hself, World.log]
    exact ⟨⟨_, rfl⟩, rfl, rfl, rfl⟩
  · simp only [hself, World.log]
    exact ⟨⟨_, rfl⟩, rfl, rfl, rfl⟩

/-- Witness of C5: the ordinary identity trying to make itself admin. -/
theorem role_escalation_guard_witness :
    (∃ msg, (updateUserController (sampleEnv allowed) selfPromote sampleWorld).2.1
        = reply 403 [("message", Field.text msg)])
    ∧ (updateUserController (sampleEnv allowed) selfPromote sampleWorld).2.2.users
        = sampleWorld.users
    ∧ (updateUserController (sampleEnv allowed) selfPromote sampleWorld).2.2.seq
        = sampleWorld.seq
    ∧ (updateUserController (sampleEnv allowed) selfPromote sampleWorld).2.2.trace
        = sampleWorld.trace ++ [Event.controller "updateUserController"] :=
  role_escalation_guard (sampleEnv allowed) selfPromote sampleWorld sampleUser.payload 7
    promote RoleEnum.admin rfl rfl rfl (by decide)

/-- C6: `deleteAllUsersController` calls `deleteAllUsers` if and only if an identity is
attached and its role is admin; for every other caller, a non-admin identity or none, it
answers 403 without calling the next stage and leaves the directory unchanged. -/
theorem bulk_delete_admin_only (req : Req) (w : World) :
    ((deleteAllUsersController req w).2.2.trace
        = w.trace ++ [Event.controller "deleteAllUsersController",
                      Event.service "deleteAllUsers"]
      ↔ ∃ user, req.user = some user ∧ user.get "role" = JsVal.str "admin")
    ∧ ((¬ ∃ user, req.user = some user ∧ user.get "role" = JsVal.str "admin") →
        (deleteAllUsersController req w).2.1
          = reply 403 [("message", Field.text "Forbidden: only admin can delete all users")]
        ∧ (deleteAllUsersController req w).2.2.users = w.users
        ∧ (deleteAllUsersController req w).2.2.seq = w.seq
        ∧ (deleteAllUsersController req w).2.2.trace
            = w.trace ++ [Event.controller "deleteAllUsersController"]) := by
  unfold deleteAllUsersController
  cases hu : req.user with
  | none => simp [World.log]
  | some user =>
    by_cases hadmin : user.get "role" = JsVal.str "admin"
    · simp [World.log, JsVal.strictEq, hadmin, deleteAllUsers]
    · simp [World.log, JsVal.strictEq, hadmin]

/-- Witness of C6: a caller without identity. -/
theorem bulk_delete_admin_only_witness :
    (deleteAllUsersController bareReq sampleWorld).2.1
      = reply 403 [("message", Field.text "Forbidden: only admin can delete all users")]
    ∧ (deleteAllUsersController bareReq sampleWorld).2.2.users = sampleWorld.users
    ∧ (deleteAllUsersController bareReq sampleWorld).2.2.seq = sampleWorld.seq
    ∧ (deleteAllUsersController bareReq sampleWorld).2.2.trace
        = sampleWorld.trace ++ [Event.controller "deleteAllUsersController"] :=
  (bulk_delete_admin_only bareReq sampleWorld).2 (by decide)

/-- C7 (evaluation of the code): a validated signup whose email is already in the directory
is not answered 409: `createUser` rethrows the duplicate error under the message
"Error creating user: User with this email already exists.", which the comparison in
`signup` does not match, so `signup` sends no response and calls `next` with the error. The
directory is unchanged. -/
theorem duplicate_signup_not_conflict :
    sampleWorld.users.any (fun r => r.email == "seven@example.com") = true
    ∧ (signup (sampleEnv allowed) duplicateSignup sampleWorld).2.1
        = { response := none,
            next := Next.calledWith
              { message := "Error creating user: User with this email already exists.",
                status := none } }
    ∧ (signup (sampleEnv allowed) duplicateSignup sampleWorld).2.2.users = sampleWorld.users
    ∧ (signup (sampleEnv allowed) duplicateSignup sampleWorld).2.1
        ≠ reply 409 [("message", Field.text "Email already exists.")] := by
  decide

/-- C8 (evaluation of the code): the administrator updating id 5, which the directory does
not hold, is answered 500 "Internal Server Error", not 404: the error `updateUser` throws
has no `status`. The directory is unchanged. -/
theorem update_absent_not_found_missed :
    sampleWorld.users.any (fun r => r.id == 5) = false
    ∧ (updateUserController (sampleEnv allowed) adminOnAbsent sampleWorld).2.1
        = reply 500 [("message", Field.text "Internal Server Error")]
    ∧ (updateUserController (sampleEnv allowed) adminOnAbsent sampleWorld).2.2.users
        = sampleWorld.users
    ∧ (deleteUserController adminOnAbsent sampleWorld).2.1
        = reply 404 [("message", Field.text "User not found")] := by
  decide

/-- C9 (the claim as stated fails): the administrator deleting the validated id
100000000000000000000, for which the directory holds no record, is answered 500
"Internal Server Error", not 404: the `id` column cannot hold the value, the query throws an
error without `status`, and the controller maps it to 500. -/
theorem delete_absent_beyond_range :
    adminOnHuge.user = some sampleAdmin.payload
    ∧ sampleAdmin.role = "admin"
    ∧ adminOnHuge.idParams = Except.ok 100000000000000000000
    ∧ sampleWorld.users.any (fun r => r.id == 100000000000000000000) = false
    ∧ (deleteUserController adminOnHuge sampleWorld).2.1
        = reply 500 [("message", Field.text "Internal Server Error")]
    ∧ (deleteUserController adminOnHuge sampleWorld).2.1
        ≠ reply 404 [("message", Field.text "User not found")] := by
  decide

/-- C9 (amended): for a caller whose attached identity has role admin and a validated id.
When the `id` column can hold the id and the directory has no record with it,
`deleteUserController` answers 404 "User not found" and leaves the directory unchanged, so
after any number of repetitions the directory is still the same and the answer is still 404.
When the column can hold the id and the directory has a record with it, the answer is 200,
the records with that id and no other are removed, and the same request is answered 404
afterwards with no further change. When the column cannot hold the id the answer is 500
"Internal Server Error" and the directory is unchanged. -/
theorem admin_delete_idempotent (req : Req) (w : World) (user : JsObj) (id : Nat)
    (huser : req.user = some user) (hid : req.idParams = Except.ok id)
    (hadmin : user.get "role" = JsVal.str "admin") :
    (id ≤ w.idMax → (∀ r ∈ w.users, r.id ≠ id) →
        (deleteUserController req w).2.1 = reply 404 [("message", Field.text "User not found")]
        ∧ (deleteUserController req w).2.2.users = w.users
        ∧ (deleteUserController req w).2.2.seq = w.seq
        ∧ ∀ n : Nat,
            (Nat.iterate (fun v => (deleteUserController req v).2.2) n w).users = w.users
            ∧ (deleteUserController req
                (Nat.iterate (fun v => (deleteUserController req v).2.2) n w)).2.1
              = reply 404 [("message", Field.text "User not found")])
    ∧ (id ≤ w.idMax → (∃ r ∈ w.users, r.id = id) →
        (deleteUserController req w).2.1
          = replyThenNext 200 [("message", Field.text "User deleted successfully")]
        ∧ (deleteUserController req w).2.2.users = w.users.filter (fun r => r.id ≠ id)
        ∧ (deleteUserController req (deleteUserController req w).2.2).2.1
            = reply 404 [("message", Field.text "User not found")]
        ∧ (deleteUserController req (deleteUserController req w).2.2).2.2.users
            = (deleteUserController req w).2.2.users)
    ∧ (w.idMax < id →
        (deleteUserController req w).2.1
          = reply 500 [("message", Field.text "Internal Server Error")]
        ∧ (deleteUserController req w).2.2.users = w.users
        ∧ (deleteUserController req w).2.2.seq = w.seq) := by
  have hauth : user.get "id" = JsVal.num id ∨ user.get "role" = JsVal.str "admin" :=
    Or.inr hadmin
  refine ⟨?_, ?_, ?_⟩
  · intro hrange habsent
    obtain ⟨h1, h2, h3, _⟩ :=
      deleteUserController_absent req w user id huser hid hauth hrange habsent
    refine ⟨h1, h2, h3, ?_⟩
    have hiter : ∀ n : Nat,
        (Nat.iterate (fun v => (deleteUserController req v).2.2) n w).users = w.users
        ∧ (Nat.iterate (fun v => (deleteUserController req v).2.2) n w).idMax = w.idMax := by
      intro n
      induction n with
      | zero => exact ⟨rfl, rfl⟩
      | succ k ih =>
        rw [Function.iterate_succ_apply']
        have hk : ∀ r ∈ (Nat.iterate (fun v => (deleteUserController req v).2.2) k w).users,
            r.id ≠ id := by
          rw [ih.1]; exact habsent
        have hr : id ≤ (Nat.iterate (fun v => (deleteUserController req v).2.2) k w).idMax := by
          rw [ih.2]; exact hrange
        obtain ⟨_, k2, _, k4⟩ :=
          deleteUserController_absent req _ user id huser hid hauth hr hk
        exact ⟨k2.trans ih.1, k4.trans ih.2⟩
    intro n
    refine ⟨(hiter n).1, ?_⟩
    have hn : ∀ r ∈ (Nat.iterate (fun v => (deleteUserController req v).2.2) n w).users,
        r.id ≠ id := by
      rw [(hiter n).1]; exact habsent
    have hr : id ≤ (Nat.iterate (fun v => (deleteUserController req v).2.2) n w).idMax := by
      rw [(hiter n).2]; exact hrange
    exact (deleteUserController_absent req _ user id huser hid hauth hr hn).1
  · intro hrange hpresent
    obtain ⟨h1, h2, h5⟩ :=
      deleteUserController_present req w user id huser hid hauth hrange hpresent
    have hgone : ∀ r ∈ (deleteUserController req w).2.2.users, r.id ≠ id := by
      rw [h2]
      intro r hr
      simpa using (List.mem_filter.mp hr).2
    have hr : id ≤ (deleteUserController req w).2.2.idMax := by
      rw [h5]; exact hrange
    obtain ⟨h3, h4, _⟩ := deleteUserController_absent req _ user id huser hid hauth hr hgone
    exact ⟨h1, h2, h3, h4⟩
  · intro hbeyond
    exact deleteUserController_beyond req w user id huser hid hauth hbeyond

/-- Witness of C9 (amended): the administrator deleting the absent id 5, and the existing
id 7. -/
theorem admin_delete_idempotent_witness :
    (deleteUserController adminOnAbsent sampleWorld).2.1
      = reply 404 [("message", Field.text "User not found")]
    ∧ (deleteUserController adminOnAbsent sampleWorld).2.2.users = sampleWorld.users
    ∧ (Nat.iterate (fun v => (deleteUserController adminOnAbsent v).2.2) 3 sampleWorld).users
        = sampleWorld.users
    ∧ (deleteUserController { adminOnAbsent with idParams := Except.ok 7 } sampleWorld).2.1
        = replyThenNext 200 [("message", Field.text "User deleted successfully")] :=
  ⟨((admin_delete_idempotent adminOnAbsent sampleWorld sampleAdmin.payload 5 rfl rfl
      (by decide)).1 (by decide) (by decide)).1,
   ((admin_delete_idempotent adminOnAbsent sampleWorld sampleAdmin.payload 5 rfl rfl
      (by decide)).1 (by decide) (by decide)).2.1,
   (((admin_delete_idempotent adminOnAbsent sampleWorld sampleAdmin.payload 5 rfl rfl
      (by decide)).1 (by decide) (by decide)).2.2.2 3).1,
   ((admin_delete_idempotent { adminOnAbsent with idParams := Except.ok 7 } sampleWorld
      sampleAdmin.payload 7 rfl rfl (by decide)).2.1 (by decide) (by decide)).1⟩

end Acquisitions
